import Mathlib

/-!
Shallow embedding of `pkg/testsuite/utils.go` from the hornet repository:
the test-transaction fabrication and ledger-bookkeeping engine
(`MessageBuilder.Build`, `MessageBuilder.BuildIndexation`, `Message.Store`,
`Message.BookOnWallets`).

Modelling conventions:
* Addresses are abstract values with decidable equality; the Go code compares
  addresses via their string rendering (`Address().String()`), which is
  injective, so address equality models string equality.
* `uint64` amounts are `Nat`; the running input sum `consumedAmount += ...`
  wraps modulo `2 ^ 64` exactly as the Go accumulator does.
* External collaborators (the iota.go codec and transaction builder, the
  proof-of-work engine, the message store) are out of scope per the spec and
  are modelled as succeeding; the transaction essence keeps the inputs and
  outputs exactly as the builder declared them.  The content-addressed
  message/transaction identifier produced by the codec is passed to `build`
  as an explicit parameter `msgId`.
* Fatal test failures (`require.*` assertion failures and the nil-pointer
  dereference that occurs when an unset wallet is used) are modelled by the
  `Except TestFailure` monad.
* The `HDWallet` collaborator (`pkg/testsuite/utils.HDWallet`) is not part of
  the given sources; its surface is modelled from the spec (see `Wallet`).
-/

/-- An account address (`iotago.Address`); compared by its (injective) string
rendering in the Go code, hence plain decidable equality here. -/
structure Address where
  addr : Nat
deriving DecidableEq, Inhabited

/-- The two chrysalis output types used by this core
(`iotago.OutputSigLockedSingleOutput`, `iotago.OutputSigLockedDustAllowanceOutput`). -/
inductive OutputType where
  | sigLockedSingleOutput
  | sigLockedDustAllowanceOutput
deriving DecidableEq, Inhabited

/-- A UTXO identifier (`iotago.UTXOInputID`): origin transaction id plus
output index.  The content-addressed transaction id is abstracted to a `Nat`. -/
structure OutputID where
  transactionID : Nat
  index : Nat
deriving DecidableEq, Inhabited

/-- An unspent output (`utxo.Output`): identifier, origin message id, type tag,
owning address and amount. -/
structure Output where
  outputID : OutputID
  messageID : Nat
  outputType : OutputType
  address : Address
  amount : Nat
deriving DecidableEq, Inhabited

/-- Modelled from the spec: the `HDWallet` collaborator
(`pkg/testsuite/utils.HDWallet`) is not under the given sources.  Per spec
sections 3 and 6 a wallet owns a derived address and a mutable set of unspent
outputs keyed by identifier, exposed in its natural iteration order; the set
is modelled as a list in that order. -/
structure Wallet where
  address : Address
  outputs : List Output
deriving DecidableEq, Inhabited

/-- A transaction output as declared on the iota.go transaction builder
(`iotago.SigLockedSingleOutput` / `iotago.SigLockedDustAllowanceOutput`). -/
structure TxOutput where
  outputType : OutputType
  address : Address
  amount : Nat
deriving DecidableEq, Inhabited

/-- The payload of a fabricated message: either a pure indexation payload
(`BuildIndexation`) or a value transaction carrying the declared outputs
together with the attached indexation tag (`Build`). -/
inductive MessagePayload where
  | indexationOnly (index : String)
  | valueTransaction (outputs : List TxOutput) (index : String)
deriving DecidableEq, Inhabited

/-- The `MessageBuilder` struct (lines 16-30): fluent configuration for one
build.  `parents` is `none` when the `hornet.MessageIDs` slice is nil, and an
entry is `none` when that parent id is nil.  The wallet pointers are `none`
when unset. -/
structure MessageBuilder where
  indexation : String
  parents : Option (List (Option Nat)) := none
  fromWallet : Option Wallet := none
  toWallet : Option Wallet := none
  amount : Nat := 0
  fakeInputs : Bool := false
  dustUnlock : Bool := false
  outputToUse : Option Output := none
deriving DecidableEq, Inhabited

/-- The `Message` struct (lines 32-42): a fabricated message together with its
UTXO side effects and the one-shot lifecycle flags.  `payload` and
`declaredOutputs` model the validated message's transaction essence. -/
structure FabricatedMessage where
  builder : MessageBuilder
  payload : MessagePayload
  consumedOutputs : List Output
  declaredOutputs : List TxOutput
  sentOutput : Option Output
  remainderOutput : Option Output
  booked : Bool
  storedMessageID : Option Nat
deriving DecidableEq, Inhabited

/-- Every fatal abort of a test step.  The `require.*` assertion failures of
`utils.go` each get a constructor; `nilWalletPanic` models the Go nil-pointer
dereference that happens when `b.fromWallet.Address()` or
`b.toWallet.Address()` (lines 118-119) or the bookings (lines 245-247) run on
an unset wallet -- there is no `require.NotNil` guard for the wallets. -/
inductive TestFailure where
  | amountNotPositive
  | nilWalletPanic
  | noCandidates
  | emptyIndexation
  | nilParents
  | nilParentEntry
  | alreadyStored
  | alreadyBooked
deriving DecidableEq, Inhabited

/-- The failure taxonomy of spec section 7. -/
inductive FailureCategory where
  | preconditionViolation
  | insufficientFunds
  | lifecycleReuse
  | runtimePanic
deriving DecidableEq, Inhabited

/-- Classification of each failure: the `require` failures on missing build
parameters (lines 88, 91, 93, 114, 164, 174) are precondition violations; the
`require.NotEmpty` on the candidate list (line 138) is the insufficient-funds
failure; the `require` guards of `Store`/`BookOnWallets` (lines 237, 244) are
lifecycle-reuse failures; a nil-pointer dereference on an unset wallet is a
runtime panic, not a testify assertion failure. -/
def TestFailure.category : TestFailure → FailureCategory
  | .amountNotPositive => .preconditionViolation
  | .emptyIndexation => .preconditionViolation
  | .nilParents => .preconditionViolation
  | .nilParentEntry => .preconditionViolation
  | .noCandidates => .insufficientFunds
  | .alreadyStored => .lifecycleReuse
  | .alreadyBooked => .lifecycleReuse
  | .nilWalletPanic => .runtimePanic

/-- Fluent constructor `NewMessageBuilder` (lines 44-49). -/
def newMessageBuilder (indexation : String) : MessageBuilder :=
  { indexation := indexation }

/-- Fluent setter `Parents` (lines 51-54); the argument slice may itself be nil. -/
def MessageBuilder.Parents (b : MessageBuilder) (parents : Option (List (Option Nat))) :
    MessageBuilder :=
  { b with parents := parents }

/-- Fluent setter `FromWallet` (lines 56-59). -/
def MessageBuilder.FromWallet (b : MessageBuilder) (wallet : Option Wallet) : MessageBuilder :=
  { b with fromWallet := wallet }

/-- Fluent setter `ToWallet` (lines 61-64). -/
def MessageBuilder.ToWallet (b : MessageBuilder) (wallet : Option Wallet) : MessageBuilder :=
  { b with toWallet := wallet }

/-- Fluent setter `Amount` (lines 66-69). -/
def MessageBuilder.Amount (b : MessageBuilder) (amount : Nat) : MessageBuilder :=
  { b with amount := amount }

/-- Fluent setter `DustAllowance` (lines 71-74). -/
def MessageBuilder.DustAllowance (b : MessageBuilder) : MessageBuilder :=
  { b with dustUnlock := true }

/-- Fluent setter `FakeInputs` (lines 76-79). -/
def MessageBuilder.FakeInputs (b : MessageBuilder) : MessageBuilder :=
  { b with fakeInputs := true }

/-- Fluent setter `UsingOutput` (lines 81-84). -/
def MessageBuilder.UsingOutput (b : MessageBuilder) (output : Option Output) : MessageBuilder :=
  { b with outputToUse := output }

/-- Sum of the amounts of a list of outputs (mathematical, non-wrapping). -/
def sumAmounts (outs : List Output) : Nat :=
  (outs.map Output.amount).sum

/-- The null message id `hornet.GetNullMessageID()` (all-zero bytes). -/
def nullMessageID : Nat := 0

/-- The synthetic fake input of line 132:
`utxo.CreateOutput(&iotago.UTXOInputID\x7b\x7d, hornet.GetNullMessageID(), iotago.OutputSigLockedSingleOutput, fromAddr, b.amount)` --
zero-valued UTXO id, null origin message, single-output type, source address,
exactly the target amount. -/
def fakeConsumableOutput (fromAddr : Address) (amount : Nat) : Output :=
  { outputID := { transactionID := 0, index := 0 }
    messageID := nullMessageID
    outputType := .sigLockedSingleOutput
    address := fromAddr
    amount := amount }

/-- Candidate selection (lines 126-136): the explicit override alone if
present, else a single synthetic fake input if the flag is set, else the
source wallet's unspent outputs. -/
def outputsThatCanBeConsumed (b : MessageBuilder) (fromAddr : Address)
    (walletOutputs : List Output) : List Output :=
  match b.outputToUse with
  | some o => [o]
  | none =>
    if b.fakeInputs then [fakeConsumableOutput fromAddr b.amount] else walletOutputs

/-- The greedy input-selection loop (lines 140-149): consume candidates in
order, accumulating `consumedAmount` (a `uint64`, hence the wrap modulo
`2 ^ 64`), breaking as soon as the accumulator reaches the target.  Returns
the consumed inputs and the final accumulator value. -/
def selectInputs (target : Nat) (consumedAmount : Nat) :
    List Output → List Output × Nat
  | [] => ([], consumedAmount)
  | o :: rest =>
    let consumedAmount' := (consumedAmount + o.amount) % 2 ^ 64
    if target ≤ consumedAmount' then ([o], consumedAmount')
    else
      let res := selectInputs target consumedAmount' rest
      (o :: res.1, res.2)

/-- The payment output (lines 151-155): dust-allowance type if the flag is
set, standard single output otherwise, to the destination address for the
target amount. -/
def paymentOutputOf (dustUnlock : Bool) (toAddr : Address) (target : Nat) : TxOutput :=
  if dustUnlock then
    { outputType := .sigLockedDustAllowanceOutput, address := toAddr, amount := target }
  else
    { outputType := .sigLockedSingleOutput, address := toAddr, amount := target }

/-- The remainder amount (lines 157-162): `consumedAmount - b.amount` when the
target is strictly below the consumed sum, zero otherwise. -/
def remainderAmountOf (target consumedAmount : Nat) : Nat :=
  if target < consumedAmount then consumedAmount - target else 0

/-- The declared transaction outputs in the order they are added to the
builder (lines 151-162): the payment output, then the remainder output (a
standard single output to the source address) exactly when the consumed sum
strictly exceeds the target. -/
def declaredOutputsOf (dustUnlock : Bool) (toAddr fromAddr : Address)
    (target consumedAmount : Nat) : List TxOutput :=
  if target < consumedAmount then
    [paymentOutputOf dustUnlock toAddr target,
     { outputType := .sigLockedSingleOutput, address := fromAddr,
       amount := consumedAmount - target }]
  else
    [paymentOutputOf dustUnlock toAddr target]

/-- The sent-output match of line 217:
`output.Address().String() == toAddr.String() && output.Amount() == b.amount`. -/
def sentCritB (toAddr : Address) (target : Nat) (o : TxOutput) : Bool :=
  o.address == toAddr && o.amount == target

/-- The remainder-output match of line 222:
`remainderAmount > 0 && output.Address().String() == fromAddr.String() && output.Amount() == remainderAmount`. -/
def remCritB (fromAddr : Address) (remainderAmount : Nat) (o : TxOutput) : Bool :=
  decide (0 < remainderAmount) && o.address == fromAddr && o.amount == remainderAmount

/-- The `utxo.Output` constructed by `utxo.NewOutput(message.GetMessageID(), messageTx, uint16(i))`
at line 214 from the declared output at index `i`; the content-addressed
message and transaction ids are both abstracted by `msgId`. -/
def mkUtxoOutput (msgId : Nat) (i : Nat) (o : TxOutput) : Output :=
  { outputID := { transactionID := msgId, index := i }
    messageID := msgId
    outputType := o.outputType
    address := o.address
    amount := o.amount }

/-- The post-build classification loop (lines 213-225): walk the declared
outputs in order; an output matching the sent criterion overwrites `sent`
(and skips the remainder check, line 219's `continue`); otherwise an output
matching the remainder criterion overwrites `rem`. -/
def classifyGo (msgId target remainderAmount : Nat) (toAddr fromAddr : Address) :
    List TxOutput → Nat → Option Output → Option Output → Option Output × Option Output
  | [], _, sent, rem => (sent, rem)
  | o :: rest, i, sent, rem =>
    if sentCritB toAddr target o then
      classifyGo msgId target remainderAmount toAddr fromAddr rest (i + 1)
        (some (mkUtxoOutput msgId i o)) rem
    else if remCritB fromAddr remainderAmount o then
      classifyGo msgId target remainderAmount toAddr fromAddr rest (i + 1)
        sent (some (mkUtxoOutput msgId i o))
    else
      classifyGo msgId target remainderAmount toAddr fromAddr rest (i + 1) sent rem

/-- Classification entry point: both roles start unassigned (nil). -/
def classifyOutputs (msgId target remainderAmount : Nat) (toAddr fromAddr : Address)
    (outs : List TxOutput) : Option Output × Option Output :=
  classifyGo msgId target remainderAmount toAddr fromAddr outs 0 none none

/-- The successfully built value-transfer message (lines 140-233 after all
checks passed): consumed inputs from the greedy selection, declared outputs,
and the classified sent/remainder outputs; the lifecycle flags start unset. -/
def mkBuiltMessage (b : MessageBuilder) (msgId : Nat) (fromW toW : Wallet)
    (cands : List Output) : FabricatedMessage :=
  let sel := selectInputs b.amount 0 cands
  let remainderAmount := remainderAmountOf b.amount sel.2
  let declared := declaredOutputsOf b.dustUnlock toW.address fromW.address b.amount sel.2
  let cls := classifyOutputs msgId b.amount remainderAmount toW.address fromW.address declared
  { builder := b
    payload := .valueTransaction declared b.indexation
    consumedOutputs := sel.1
    declaredOutputs := declared
    sentOutput := cls.1
    remainderOutput := cls.2
    booked := false
    storedMessageID := none }

/-- The value-transfer build `Build` (lines 112-234).  Checks in source order:
`require.True(b.amount > 0)` (114), the wallet dereferences (118-119, a nil
wallet panics), `require.NotEmpty(outputsThatCanBeConsumed)` (138),
`require.NotEmpty(b.indexation)` (164), `require.NotNil(b.parents)` (174).
The external codec / signing / proof-of-work / validation calls are modelled
as succeeding with `msgId` as the resulting content-addressed id. -/
def MessageBuilder.build (b : MessageBuilder) (msgId : Nat) :
    Except TestFailure FabricatedMessage :=
  if b.amount = 0 then .error .amountNotPositive
  else
    match b.fromWallet, b.toWallet with
    | none, _ => .error .nilWalletPanic
    | some _, none => .error .nilWalletPanic
    | some fromW, some toW =>
      let cands := outputsThatCanBeConsumed b fromW.address fromW.outputs
      if cands.isEmpty then .error .noCandidates
      else if b.indexation.isEmpty then .error .emptyIndexation
      else if b.parents.isNone then .error .nilParents
      else .ok (mkBuiltMessage b msgId fromW toW cands)

/-- The parent-collection loop of `BuildIndexation` (lines 90-95): each parent
must be non-nil; the first nil entry aborts. -/
def collectParents : List (Option Nat) → Except TestFailure (List Nat)
  | [] => .ok []
  | none :: _ => .error .nilParentEntry
  | some p :: rest =>
    match collectParents rest with
    | .ok ps => .ok (p :: ps)
    | .error e => .error e

/-- The tag-only build `BuildIndexation` (lines 86-110):
`require.NotEmpty(b.indexation)` (88), `require.NotNil(b.parents)` (91),
`require.NotNil(parent)` per entry (93); codec, proof-of-work and strict
validation are external and modelled as succeeding.  The result carries only
the indexation payload and all zero-valued `Message` fields. -/
def MessageBuilder.buildIndexation (b : MessageBuilder) :
    Except TestFailure FabricatedMessage :=
  if b.indexation.isEmpty then .error .emptyIndexation
  else
    match b.parents with
    | none => .error .nilParents
    | some ps =>
      match collectParents ps with
      | .error e => .error e
      | .ok _ =>
        .ok { builder := b
              payload := .indexationOnly b.indexation
              consumedOutputs := []
              declaredOutputs := []
              sentOutput := none
              remainderOutput := none
              booked := false
              storedMessageID := none }

/-- Lifecycle step `Store` (lines 236-240): `require.Nil(m.storedMessageID)`,
then record the identifier returned by the external message store (passed as
`storeId`). -/
def FabricatedMessage.store (m : FabricatedMessage) (storeId : Nat) :
    Except TestFailure FabricatedMessage :=
  match m.storedMessageID with
  | some _ => .error .alreadyStored
  | none => .ok { m with storedMessageID := some storeId }

/-- Modelled from the spec: `HDWallet.BookSpents` is not under the given
sources.  Per spec sections 4.3 and 9, spend-booking is an exact
removal-by-key from the wallet's identifier-keyed output set; removing an
identifier that is not present is a no-op of that map deletion. -/
def Wallet.bookSpents (w : Wallet) (spents : List Output) : Wallet :=
  { w with outputs := w.outputs.filter fun o => !(spents.any fun s => s.outputID == o.outputID) }

/-- Modelled from the spec: `HDWallet.BookOutput` is not under the given
sources.  Per spec sections 4.3 and 6, credit-booking adds the given output to
the wallet's set when one was identified; a nil output adds nothing. -/
def Wallet.bookOutput (w : Wallet) (o : Option Output) : Wallet :=
  match o with
  | some out => { w with outputs := w.outputs ++ [out] }
  | none => w

/-- Lifecycle step `BookOnWallets` (lines 242-251): `require.False(m.booked)`,
then book the consumed outputs as spent on the source wallet, credit the sent
output on the destination wallet and the remainder output on the source
wallet, and set `booked`.  A nil wallet pointer would panic.  The two wallet
states live in the builder; the Go in-place pointer mutation becomes a
functional update of those fields. -/
def FabricatedMessage.bookOnWallets (m : FabricatedMessage) :
    Except TestFailure FabricatedMessage :=
  if m.booked then .error .alreadyBooked
  else
    match m.builder.fromWallet, m.builder.toWallet with
    | some fromW, some toW =>
      let fromW' := (fromW.bookSpents m.consumedOutputs).bookOutput m.remainderOutput
      let toW' := toW.bookOutput m.sentOutput
      .ok { m with
            booked := true
            builder := { m.builder with fromWallet := some fromW', toWallet := some toW' } }
    | _, _ => .error .nilWalletPanic

-- Concrete data used by the example instantiations below.

/-- Source address used in concrete instantiations. -/
def addrA : Address := { addr := 1 }

/-- Destination address used in concrete instantiations. -/
def addrB : Address := { addr := 2 }

/-- An unspent output of amount 100 owned by `addrA`. -/
def outA100 : Output :=
  { outputID := { transactionID := 11, index := 0 }, messageID := 11,
    outputType := .sigLockedSingleOutput, address := addrA, amount := 100 }

/-- A funded source wallet holding one output of amount 100. -/
def walletA : Wallet := { address := addrA, outputs := [outA100] }

/-- An empty destination wallet. -/
def walletB : Wallet := { address := addrB, outputs := [] }

/-- A fully configured builder: send 60 from `walletA` to `walletB`. -/
def bMain : MessageBuilder :=
  { indexation := "test", parents := some [some 1], fromWallet := some walletA,
    toWallet := some walletB, amount := 60 }

/-- The message fabricated by `bMain` with content id 5. -/
def mMain : FabricatedMessage := (bMain.build 5).toOption.getD default

/-- The booking of `mMain`. -/
def mMainBooked : FabricatedMessage := mMain.bookOnWallets.toOption.getD default

/-- The storing of `mMain` under id 77. -/
def mMainStored : FabricatedMessage := (mMain.store 77).toOption.getD default

/-- A tag-only builder. -/
def bIdx : MessageBuilder := { indexation := "i", parents := some [some 2] }

/-- The tag-only message fabricated by `bIdx`. -/
def mIdx : FabricatedMessage := bIdx.buildIndexation.toOption.getD default

/-- An output of amount 5, insufficient for a target of 10. -/
def outPoor5 : Output :=
  { outputID := { transactionID := 13, index := 0 }, messageID := 13,
    outputType := .sigLockedSingleOutput, address := addrA, amount := 5 }

/-- A wallet whose single output cannot cover a target of 10. -/
def walletPoor : Wallet := { address := addrA, outputs := [outPoor5] }

/-- A builder asking for 10 from the underfunded `walletPoor`. -/
def bPoor : MessageBuilder :=
  { indexation := "p", parents := some [some 1], fromWallet := some walletPoor,
    toWallet := some walletB, amount := 10 }

/-- The message fabricated by `bPoor` (the build succeeds despite the
shortfall). -/
def mPoor : FabricatedMessage := (bPoor.build 3).toOption.getD default

/-- A second underfunded builder, used by the insufficient-funds claim. -/
def bPoor2 : MessageBuilder :=
  { indexation := "q", parents := some [some 1], fromWallet := some walletPoor,
    toWallet := some walletB, amount := 42 }

/-- A builder with no source wallet set (the dereference at line 118 panics). -/
def bNilWalletCex : MessageBuilder :=
  { indexation := "x", parents := some [some 1], amount := 5 }

/-- A builder with amount left unset. -/
def bAmt0 : MessageBuilder := { indexation := "x", parents := some [some 1] }

/-- A builder with source wallet but no destination wallet. -/
def bNoTo : MessageBuilder :=
  { indexation := "x", parents := some [some 1], amount := 5, fromWallet := some walletA }

/-- A builder with an empty tag. -/
def bNoTag : MessageBuilder :=
  { indexation := "", parents := some [some 1], amount := 5, fromWallet := some walletA,
    toWallet := some walletB }

/-- A builder with parents left unset. -/
def bNoParents : MessageBuilder :=
  { indexation := "x", amount := 5, fromWallet := some walletA, toWallet := some walletB }

/-- The self-transfer wallet for the classification tie-break scenario. -/
def walletSelf : Wallet :=
  { address := { addr := 7 },
    outputs := [{ outputID := { transactionID := 21, index := 0 }, messageID := 21,
                  outputType := .sigLockedSingleOutput, address := { addr := 7 },
                  amount := 100 }] }

/-- A dust-allowance self-transfer of 50 out of 100: the payment output and
the remainder output both carry the same address and amount, so both match
the sent criterion. -/
def bSelf : MessageBuilder :=
  { indexation := "d", parents := some [some 1], fromWallet := some walletSelf,
    toWallet := some walletSelf, amount := 50, dustUnlock := true }

/-- The message fabricated by `bSelf` with content id 9. -/
def mSelf : FabricatedMessage := (bSelf.build 9).toOption.getD default

/-- An empty-funded source wallet for the fake-input scenario. -/
def walletEmptyA : Wallet := { address := addrA, outputs := [] }

/-- A fake-input build: no real funds, synthetic input of exactly 50. -/
def bFake : MessageBuilder :=
  { indexation := "f", parents := some [some 1], fromWallet := some walletEmptyA,
    toWallet := some walletB, amount := 50, fakeInputs := true }

/-- The message fabricated by `bFake`; its consumed input was never a member
of the source wallet's set. -/
def mFake : FabricatedMessage := (bFake.build 6).toOption.getD default

/-- A builder whose empty wallet triggers the empty-candidate failure. -/
def bEmptyCands : MessageBuilder :=
  { indexation := "x", parents := some [some 1], amount := 5,
    fromWallet := some walletEmptyA, toWallet := some walletB }

/-- A tag-only builder whose parents contain a nil entry. -/
def bNilParentEntry : MessageBuilder :=
  { indexation := "x", parents := some [some 1, none] }

/-- The sent output classified for `bMain`: the payment output at index 0 of
message 5. -/
def sentMain : Output := mkUtxoOutput 5 0 (paymentOutputOf false addrB 60)

-- ## Helper lemmas

@[simp] lemma sumAmounts_nil : sumAmounts [] = 0 := rfl

@[simp] lemma sumAmounts_cons (o : Output) (l : List Output) :
    sumAmounts (o :: l) = o.amount + sumAmounts l := by
  simp [sumAmounts]

lemma sumAmounts_append (l₁ l₂ : List Output) :
    sumAmounts (l₁ ++ l₂) = sumAmounts l₁ + sumAmounts l₂ := by
  simp [sumAmounts]

lemma sumAmounts_take_le (l : List Output) (k : Nat) :
    sumAmounts (l.take k) ≤ sumAmounts l := by
  conv_rhs => rw [← List.take_append_drop k l]
  rw [sumAmounts_append]
  omega

lemma selectInputs_snd (t : Nat) :
    ∀ (l : List Output) (s : Nat), s + sumAmounts l < 2 ^ 64 →
      (selectInputs t s l).2 = s + sumAmounts (selectInputs t s l).1 := by
  intro l
  induction l with
  | nil => intro s h; simp [selectInputs]
  | cons o rest ih =>
    intro s h
    rw [sumAmounts_cons] at h
    have hno : (s + o.amount) % 2 ^ 64 = s + o.amount := Nat.mod_eq_of_lt (by omega)
    simp only [selectInputs, hno]
    by_cases ht : t ≤ s + o.amount
    · simp [ht]
    · have hrec := ih (s + o.amount) (by omega)
      simp [ht]
      omega

lemma selectInputs_reaches (t : Nat) :
    ∀ (l : List Output) (s : Nat), s + sumAmounts l < 2 ^ 64 →
      t ≤ s + sumAmounts l → t ≤ (selectInputs t s l).2 := by
  intro l
  induction l with
  | nil => intro s h hle; simpa [selectInputs] using hle
  | cons o rest ih =>
    intro s h hle
    rw [sumAmounts_cons] at h hle
    have hno : (s + o.amount) % 2 ^ 64 = s + o.amount := Nat.mod_eq_of_lt (by omega)
    simp only [selectInputs, hno]
    by_cases ht : t ≤ s + o.amount
    · simp [ht]
    · have hrec := ih (s + o.amount) (by omega) (by omega)
      simpa [ht] using hrec

lemma selectInputs_greedy (t : Nat) :
    ∀ (l : List Output) (s : Nat), s < t → s + sumAmounts l < 2 ^ 64 →
      ∃ k, k ≤ l.length ∧ (selectInputs t s l).1 = l.take k ∧
        (t ≤ s + sumAmounts (l.take k) ∨ k = l.length) ∧
        (∀ j, j < k → s + sumAmounts (l.take j) < t) := by
  intro l
  induction l with
  | nil =>
    intro s hst h
    exact ⟨0, Nat.le_refl _, by simp [selectInputs], Or.inr rfl, fun j hj => by omega⟩
  | cons o rest ih =>
    intro s hst h
    rw [sumAmounts_cons] at h
    have hno : (s + o.amount) % 2 ^ 64 = s + o.amount := Nat.mod_eq_of_lt (by omega)
    by_cases ht : t ≤ s + o.amount
    · refine ⟨1, by simp, ?_, ?_, ?_⟩
      · simp only [selectInputs, hno]
        simp [ht]
      · refine Or.inl ?_
        simp only [List.take_succ_cons, List.take_zero, sumAmounts_cons, sumAmounts_nil]
        omega
      · intro j hj
        have hj0 : j = 0 := by omega
        subst hj0
        simpa using hst
    · obtain ⟨k, hk, h1, h2, h3⟩ := ih (s + o.amount) (by omega) (by omega)
      refine ⟨k + 1, by simpa using hk, ?_, ?_, ?_⟩
      · simp only [selectInputs, hno]
        simp [ht, h1]
      · rcases h2 with h2 | h2
        · refine Or.inl ?_
          simp only [List.take_succ_cons, sumAmounts_cons]
          omega
        · exact Or.inr (by simp [h2])
      · intro j hj
        rcases j with _ | j'
        · simpa using hst
        · have := h3 j' (by omega)
          simp only [List.take_succ_cons, sumAmounts_cons]
          omega

lemma selectInputs_fst_singleton (t s : Nat) (o : Output) :
    (selectInputs t s [o]).1 = [o] := by
  simp only [selectInputs]
  split <;> rfl

lemma opt_map_or {α β : Type} (f : α → β) (a b : Option α) :
    (a.or b).map f = (a.map f).or (b.map f) := by
  cases a <;> rfl

lemma opt_or_assoc {α : Type} (a b c : Option α) :
    (a.or b).or c = a.or (b.or c) := by
  cases a <;> rfl

lemma classifyGo_eq (msgId target remainderAmount : Nat) (toAddr fromAddr : Address) :
    ∀ (outs : List TxOutput) (i : Nat) (sent rem : Option Output),
      classifyGo msgId target remainderAmount toAddr fromAddr outs i sent rem =
        ((((List.enumFrom i outs).reverse.find? fun x => sentCritB toAddr target x.2).map
            fun x => mkUtxoOutput msgId x.1 x.2).or sent,
         (((List.enumFrom i outs).reverse.find? fun x =>
              !sentCritB toAddr target x.2 && remCritB fromAddr remainderAmount x.2).map
            fun x => mkUtxoOutput msgId x.1 x.2).or rem) := by
  intro outs
  induction outs with
  | nil => intro i sent rem; simp [classifyGo]
  | cons o rest ih =>
    intro i sent rem
    rw [List.enumFrom_cons, List.reverse_cons]
    cases hs : sentCritB toAddr target o with
    | true =>
      rw [classifyGo, if_pos hs, ih]
      simp [List.find?_append, hs, opt_map_or, opt_or_assoc]
    | false =>
      cases hr : remCritB fromAddr remainderAmount o with
      | true =>
        rw [classifyGo, if_neg (by simp [hs]), if_pos hr, ih]
        simp [List.find?_append, hs, hr, opt_map_or, opt_or_assoc]
      | false =>
        rw [classifyGo, if_neg (by simp [hs]), if_neg (by simp [hr]), ih]
        simp [List.find?_append, hs, hr, opt_map_or, opt_or_assoc]

lemma build_ok_inv {b : MessageBuilder} {msgId : Nat} {m : FabricatedMessage}
    (h : b.build msgId = Except.ok m) :
    ∃ fromW toW, b.amount ≠ 0 ∧ b.fromWallet = some fromW ∧ b.toWallet = some toW ∧
      (outputsThatCanBeConsumed b fromW.address fromW.outputs).isEmpty = false ∧
      b.indexation.isEmpty = false ∧ b.parents.isNone = false ∧
      m = mkBuiltMessage b msgId fromW toW
            (outputsThatCanBeConsumed b fromW.address fromW.outputs) := by
  by_cases ha : b.amount = 0
  · rw [MessageBuilder.build, if_pos ha] at h
    exact absurd h (by simp)
  rcases hfw : b.fromWallet with _ | fromW
  · rw [MessageBuilder.build, if_neg ha] at h
    simp only [hfw] at h
    exact absurd h (by simp)
  rcases htw : b.toWallet with _ | toW
  · rw [MessageBuilder.build, if_neg ha] at h
    simp only [hfw, htw] at h
    exact absurd h (by simp)
  rw [MessageBuilder.build, if_neg ha] at h
  simp only [hfw, htw] at h
  cases hc : (outputsThatCanBeConsumed b fromW.address fromW.outputs).isEmpty with
  | true => simp [hc] at h
  | false =>
    cases hi : b.indexation.isEmpty with
    | true => simp [hc, hi] at h
    | false =>
      cases hp : b.parents.isNone with
      | true => simp [hc, hi, hp] at h
      | false =>
        simp only [hc, hi, hp, Bool.false_eq_true, if_false] at h
        exact ⟨fromW, toW, ha, rfl, rfl, hc, rfl, rfl, (Except.ok.inj h).symm⟩

lemma build_ok_of (b : MessageBuilder) (msgId : Nat) (fromW toW : Wallet)
    (ha : b.amount ≠ 0) (hfw : b.fromWallet = some fromW) (htw : b.toWallet = some toW)
    (hc : (outputsThatCanBeConsumed b fromW.address fromW.outputs).isEmpty = false)
    (hi : b.indexation.isEmpty = false) (hp : b.parents.isNone = false) :
    b.build msgId = Except.ok (mkBuiltMessage b msgId fromW toW
      (outputsThatCanBeConsumed b fromW.address fromW.outputs)) := by
  rw [MessageBuilder.build, if_neg ha]
  simp only [hfw, htw, hc, hi, hp, Bool.false_eq_true, if_false]

lemma mkBuiltMessage_builder (b : MessageBuilder) (msgId : Nat) (fromW toW : Wallet)
    (cands : List Output) : (mkBuiltMessage b msgId fromW toW cands).builder = b := rfl

lemma mkBuiltMessage_consumed (b : MessageBuilder) (msgId : Nat) (fromW toW : Wallet)
    (cands : List Output) :
    (mkBuiltMessage b msgId fromW toW cands).consumedOutputs =
      (selectInputs b.amount 0 cands).1 := rfl

lemma mkBuiltMessage_declared (b : MessageBuilder) (msgId : Nat) (fromW toW : Wallet)
    (cands : List Output) :
    (mkBuiltMessage b msgId fromW toW cands).declaredOutputs =
      declaredOutputsOf b.dustUnlock toW.address fromW.address b.amount
        (selectInputs b.amount 0 cands).2 := rfl

lemma mkBuiltMessage_sent (b : MessageBuilder) (msgId : Nat) (fromW toW : Wallet)
    (cands : List Output) :
    (mkBuiltMessage b msgId fromW toW cands).sentOutput =
      (classifyOutputs msgId b.amount
        (remainderAmountOf b.amount (selectInputs b.amount 0 cands).2)
        toW.address fromW.address
        (declaredOutputsOf b.dustUnlock toW.address fromW.address b.amount
          (selectInputs b.amount 0 cands).2)).1 := rfl

lemma mkBuiltMessage_remainder (b : MessageBuilder) (msgId : Nat) (fromW toW : Wallet)
    (cands : List Output) :
    (mkBuiltMessage b msgId fromW toW cands).remainderOutput =
      (classifyOutputs msgId b.amount
        (remainderAmountOf b.amount (selectInputs b.amount 0 cands).2)
        toW.address fromW.address
        (declaredOutputsOf b.dustUnlock toW.address fromW.address b.amount
          (selectInputs b.amount 0 cands).2)).2 := rfl

lemma collectParents_error_of_mem_none :
    ∀ (ps : List (Option Nat)), none ∈ ps →
      collectParents ps = Except.error TestFailure.nilParentEntry := by
  intro ps
  induction ps with
  | nil => intro h; simp at h
  | cons p rest ih =>
    intro h
    match p with
    | none => rfl
    | some v =>
      have hmem : none ∈ rest := by
        rcases List.mem_cons.mp h with h' | h'
        · exact absurd h' (by simp)
        · exact h'
      simp [collectParents, ih hmem]

lemma collectParents_ok_of_all_some :
    ∀ (ps : List (Option Nat)), (∀ p ∈ ps, p ≠ none) →
      ∃ l, collectParents ps = Except.ok l := by
  intro ps
  induction ps with
  | nil => intro _; exact ⟨[], rfl⟩
  | cons p rest ih =>
    intro h
    match hp : p with
    | none => exact absurd rfl (h none (by simp))
    | some v =>
      obtain ⟨l, hl⟩ := ih fun q hq => h q (List.mem_cons_of_mem _ hq)
      exact ⟨v :: l, by simp [collectParents, hl]⟩

-- ## Claim theorems

/-- C1 (amended): for every value-transfer build that succeeds (candidate
amounts totalling below `2 ^ 64`, the `uint64` regime), whenever a remainder
output is produced the consumed input amounts sum to exactly the target
amount plus the remainder output's amount, on every candidate path including
an explicit output override; and the consumed sum is at least the target
whenever the candidate outputs' total amount is at least the target.  The
unconditional "sum of consumed inputs ≥ target" part of the original claim
is false: a build whose non-empty candidate list cannot cover the target
still succeeds, with consumed sum below the target and no remainder. -/
theorem build_remainder_accounting (b : MessageBuilder) (msgId : Nat)
    (m : FabricatedMessage) (fromW : Wallet)
    (hfw : b.fromWallet = some fromW)
    (hok : b.build msgId = Except.ok m)
    (hnof : sumAmounts (outputsThatCanBeConsumed b fromW.address fromW.outputs) < 2 ^ 64) :
    (b.amount ≤ sumAmounts (outputsThatCanBeConsumed b fromW.address fromW.outputs) →
      b.amount ≤ sumAmounts m.consumedOutputs) ∧
    (∀ r, m.remainderOutput = some r →
      sumAmounts m.consumedOutputs = b.amount + r.amount) := by
  obtain ⟨fw', tw', ha, hfw', htw', hc, hi, hp, hm⟩ := build_ok_inv hok
  rw [hfw] at hfw'
  obtain rfl := Option.some.inj hfw'
  subst hm
  have hnof0 : 0 + sumAmounts (outputsThatCanBeConsumed b fromW.address fromW.outputs) < 2 ^ 64 := by
    simpa using hnof
  have hsnd := selectInputs_snd b.amount (outputsThatCanBeConsumed b fromW.address fromW.outputs)
    0 hnof0
  constructor
  · intro hcov
    have hre := selectInputs_reaches b.amount
      (outputsThatCanBeConsumed b fromW.address fromW.outputs) 0 hnof0 (by simpa using hcov)
    rw [hsnd] at hre
    simpa [mkBuiltMessage_consumed] using hre
  · intro r hr
    rw [mkBuiltMessage_remainder] at hr
    simp only [classifyOutputs, classifyGo_eq, Option.or_none] at hr
    obtain ⟨x, hfind, hmk⟩ := Option.map_eq_some'.mp hr
    have hp2 := List.find?_some hfind
    rw [Bool.and_eq_true] at hp2
    have hrem := hp2.2
    simp only [remCritB, Bool.and_eq_true] at hrem
    obtain ⟨⟨hpos, -⟩, hamt⟩ := hrem
    rw [decide_eq_true_eq] at hpos
    rw [beq_iff_eq] at hamt
    have hr_amount : r.amount = x.2.amount := by subst hmk; rfl
    rw [mkBuiltMessage_consumed]
    by_cases hlt : b.amount <
        (selectInputs b.amount 0 (outputsThatCanBeConsumed b fromW.address fromW.outputs)).2
    · rw [remainderAmountOf, if_pos hlt] at hamt
      omega
    · rw [remainderAmountOf, if_neg hlt] at hpos
      omega

/-- C1 witness: concrete instantiation at a funded wallet. -/
theorem build_remainder_accounting_witness :
    bMain.fromWallet = some walletA ∧
    bMain.build 5 = Except.ok mMain ∧
    sumAmounts (outputsThatCanBeConsumed bMain walletA.address walletA.outputs) < 2 ^ 64 ∧
    ((bMain.amount ≤ sumAmounts (outputsThatCanBeConsumed bMain walletA.address walletA.outputs) →
        bMain.amount ≤ sumAmounts mMain.consumedOutputs) ∧
      (∀ r, mMain.remainderOutput = some r →
        sumAmounts mMain.consumedOutputs = bMain.amount + r.amount)) :=
  ⟨rfl, rfl, by decide, build_remainder_accounting bMain 5 mMain walletA rfl rfl (by decide)⟩

/-- C1 counterexample: a wallet holding a single output of amount 5 and a
target of 10 — the build succeeds (all external checks pass; nothing in this
core re-checks coverage) yet the consumed inputs sum to 5 < 10, refuting
"sum of consumed inputs ≥ target for every successful build". -/
theorem consumed_below_target_counterexample :
    bPoor.build 3 = Except.ok mPoor ∧
    sumAmounts mPoor.consumedOutputs < bPoor.amount :=
  ⟨rfl, by decide⟩

/-- C2: input selection is deterministic (a pure function of the builder) and
greedy in candidate-list order.  With an explicit override the consumed list
is exactly that single output; with the fake-input flag it is exactly the
synthetic output carrying the target amount at the null origin message; and
otherwise it is the shortest prefix of the source wallet's unspent outputs in
their natural order whose sum reaches the target amount, or the whole list
when the candidates are exhausted first (wallet iteration order itself is
modelled from the spec, since `HDWallet` is not among the given sources). -/
theorem build_greedy_selection (b : MessageBuilder) (msgId : Nat)
    (m : FabricatedMessage) (fromW : Wallet)
    (hfw : b.fromWallet = some fromW)
    (hok : b.build msgId = Except.ok m)
    (hnof : sumAmounts (outputsThatCanBeConsumed b fromW.address fromW.outputs) < 2 ^ 64) :
    (∀ o, b.outputToUse = some o → m.consumedOutputs = [o]) ∧
    (b.outputToUse = none → b.fakeInputs = true →
        m.consumedOutputs = [fakeConsumableOutput fromW.address b.amount] ∧
        (fakeConsumableOutput fromW.address b.amount).messageID = nullMessageID ∧
        (fakeConsumableOutput fromW.address b.amount).amount = b.amount) ∧
    (b.outputToUse = none → b.fakeInputs = false →
        ∃ k, k ≤ fromW.outputs.length ∧ m.consumedOutputs = fromW.outputs.take k ∧
          (b.amount ≤ sumAmounts m.consumedOutputs ∨ k = fromW.outputs.length) ∧
          (∀ j, j < k → sumAmounts (fromW.outputs.take j) < b.amount)) := by
  obtain ⟨fw', tw', ha, hfw', htw', hc, hi, hp, hm⟩ := build_ok_inv hok
  rw [hfw] at hfw'
  obtain rfl := Option.some.inj hfw'
  subst hm
  refine ⟨?_, ?_, ?_⟩
  · intro o ho
    have hca : outputsThatCanBeConsumed b fromW.address fromW.outputs = [o] := by
      simp [outputsThatCanBeConsumed, ho]
    rw [mkBuiltMessage_consumed, hca]
    exact selectInputs_fst_singleton _ _ _
  · intro h1 h2
    have hca : outputsThatCanBeConsumed b fromW.address fromW.outputs =
        [fakeConsumableOutput fromW.address b.amount] := by
      simp [outputsThatCanBeConsumed, h1, h2]
    exact ⟨by rw [mkBuiltMessage_consumed, hca]; exact selectInputs_fst_singleton _ _ _, rfl, rfl⟩
  · intro h1 h2
    have hca : outputsThatCanBeConsumed b fromW.address fromW.outputs = fromW.outputs := by
      simp [outputsThatCanBeConsumed, h1, h2]
    rw [hca] at hnof
    obtain ⟨k, hk, hksel, hstop, hmin⟩ := selectInputs_greedy b.amount fromW.outputs 0
      (by omega) (by simpa using hnof)
    rw [mkBuiltMessage_consumed, hca]
    refine ⟨k, hk, hksel, ?_, ?_⟩
    · rcases hstop with hstop | hstop
      · exact Or.inl (by rw [hksel]; simpa using hstop)
      · exact Or.inr hstop
    · intro j hj
      simpa using hmin j hj

/-- C2 witness: concrete instantiation at a funded wallet. -/
theorem build_greedy_selection_witness :
    bMain.fromWallet = some walletA ∧
    bMain.build 5 = Except.ok mMain ∧
    sumAmounts (outputsThatCanBeConsumed bMain walletA.address walletA.outputs) < 2 ^ 64 ∧
    ((∀ o, bMain.outputToUse = some o → mMain.consumedOutputs = [o]) ∧
      (bMain.outputToUse = none → bMain.fakeInputs = true →
          mMain.consumedOutputs = [fakeConsumableOutput walletA.address bMain.amount] ∧
          (fakeConsumableOutput walletA.address bMain.amount).messageID = nullMessageID ∧
          (fakeConsumableOutput walletA.address bMain.amount).amount = bMain.amount) ∧
      (bMain.outputToUse = none → bMain.fakeInputs = false →
          ∃ k, k ≤ walletA.outputs.length ∧
            mMain.consumedOutputs = walletA.outputs.take k ∧
            (bMain.amount ≤ sumAmounts mMain.consumedOutputs ∨ k = walletA.outputs.length) ∧
            (∀ j, j < k → sumAmounts (walletA.outputs.take j) < bMain.amount))) :=
  ⟨rfl, rfl, by decide, build_greedy_selection bMain 5 mMain walletA rfl rfl (by decide)⟩

/-- C3: the build declares exactly one payment output to the destination
address for exactly the target amount, of dust-allowance type iff the dust
flag is set, and exactly one remainder output -- a standard single output to
the source address for the consumed surplus -- iff the consumed sum strictly
exceeds the target; equal sums declare no remainder. -/
theorem build_declared_outputs (b : MessageBuilder) (msgId : Nat)
    (m : FabricatedMessage) (fromW toW : Wallet)
    (hfw : b.fromWallet = some fromW) (htw : b.toWallet = some toW)
    (hok : b.build msgId = Except.ok m)
    (hnof : sumAmounts (outputsThatCanBeConsumed b fromW.address fromW.outputs) < 2 ^ 64) :
    (sumAmounts m.consumedOutputs ≤ b.amount →
        m.declaredOutputs = [paymentOutputOf b.dustUnlock toW.address b.amount]) ∧
    (b.amount < sumAmounts m.consumedOutputs →
        m.declaredOutputs =
          [paymentOutputOf b.dustUnlock toW.address b.amount,
           { outputType := OutputType.sigLockedSingleOutput, address := fromW.address,
             amount := sumAmounts m.consumedOutputs - b.amount }]) ∧
    (paymentOutputOf b.dustUnlock toW.address b.amount).outputType =
      (if b.dustUnlock then OutputType.sigLockedDustAllowanceOutput
       else OutputType.sigLockedSingleOutput) ∧
    (paymentOutputOf b.dustUnlock toW.address b.amount).address = toW.address ∧
    (paymentOutputOf b.dustUnlock toW.address b.amount).amount = b.amount := by
  obtain ⟨fw', tw', ha, hfw', htw', hc, hi, hp, hm⟩ := build_ok_inv hok
  rw [hfw] at hfw'
  rw [htw] at htw'
  obtain rfl := Option.some.inj hfw'
  obtain rfl := Option.some.inj htw'
  subst hm
  have hnof0 : 0 + sumAmounts (outputsThatCanBeConsumed b fromW.address fromW.outputs) <
      2 ^ 64 := by simpa using hnof
  have hsnd := selectInputs_snd b.amount (outputsThatCanBeConsumed b fromW.address fromW.outputs)
    0 hnof0
  rw [mkBuiltMessage_consumed, mkBuiltMessage_declared]
  refine ⟨?_, ?_, ?_, ?_, ?_⟩
  · intro hle
    rw [declaredOutputsOf, if_neg (by omega)]
  · intro hlt
    rw [declaredOutputsOf, if_pos (by omega)]
    have : (selectInputs b.amount 0 (outputsThatCanBeConsumed b fromW.address fromW.outputs)).2 =
        sumAmounts
          (selectInputs b.amount 0 (outputsThatCanBeConsumed b fromW.address fromW.outputs)).1 := by
      omega
    rw [this]
  · cases hd : b.dustUnlock <;> simp [paymentOutputOf]
  · cases hd : b.dustUnlock <;> simp [paymentOutputOf]
  · cases hd : b.dustUnlock <;> simp [paymentOutputOf]

/-- C3 witness: concrete instantiation at a funded wallet, which declares a
payment of 60 and a remainder of 40. -/
theorem build_declared_outputs_witness :
    bMain.fromWallet = some walletA ∧
    bMain.toWallet = some walletB ∧
    bMain.build 5 = Except.ok mMain ∧
    sumAmounts (outputsThatCanBeConsumed bMain walletA.address walletA.outputs) < 2 ^ 64 ∧
    ((sumAmounts mMain.consumedOutputs ≤ bMain.amount →
        mMain.declaredOutputs = [paymentOutputOf bMain.dustUnlock walletB.address bMain.amount]) ∧
      (bMain.amount < sumAmounts mMain.consumedOutputs →
        mMain.declaredOutputs =
          [paymentOutputOf bMain.dustUnlock walletB.address bMain.amount,
           { outputType := OutputType.sigLockedSingleOutput, address := walletA.address,
             amount := sumAmounts mMain.consumedOutputs - bMain.amount }]) ∧
      (paymentOutputOf bMain.dustUnlock walletB.address bMain.amount).outputType =
        (if bMain.dustUnlock then OutputType.sigLockedDustAllowanceOutput
         else OutputType.sigLockedSingleOutput) ∧
      (paymentOutputOf bMain.dustUnlock walletB.address bMain.amount).address =
        walletB.address ∧
      (paymentOutputOf bMain.dustUnlock walletB.address bMain.amount).amount = bMain.amount) :=
  ⟨rfl, rfl, rfl, by decide,
    build_declared_outputs bMain 5 mMain walletA walletB rfl rfl rfl (by decide)⟩

/-- C6 (amended): the build fails fatally with the insufficient-funds failure
(`require.NotEmpty` on the candidate list, line 138) exactly when the
candidate set is empty, before any wallet mutation (the build never touches
wallet state -- see the booking-effects theorem); a non-empty candidate set
that cannot cover the target does not trigger any failure in this core: the
build succeeds after consuming every candidate (see the counterexample). -/
theorem build_insufficient_funds_check (b : MessageBuilder) (msgId : Nat)
    (fromW toW : Wallet)
    (h0 : b.amount ≠ 0) (hfw : b.fromWallet = some fromW) (htw : b.toWallet = some toW) :
    (b.outputToUse = none → b.fakeInputs = false → fromW.outputs = [] →
        b.build msgId = Except.error TestFailure.noCandidates ∧
        TestFailure.noCandidates.category = FailureCategory.insufficientFunds) ∧
    (outputsThatCanBeConsumed b fromW.address fromW.outputs ≠ [] →
        b.indexation.isEmpty = false → b.parents.isNone = false →
        (b.build msgId).isOk = true) := by
  constructor
  · intro h1 h2 h3
    have hca : outputsThatCanBeConsumed b fromW.address fromW.outputs = [] := by
      simp [outputsThatCanBeConsumed, h1, h2, h3]
    refine ⟨?_, rfl⟩
    rw [MessageBuilder.build, if_neg h0]
    simp [hfw, htw, hca]
  · intro h1 h2 h3
    have hc : (outputsThatCanBeConsumed b fromW.address fromW.outputs).isEmpty = false :=
      List.isEmpty_eq_false.mpr h1
    rw [build_ok_of b msgId fromW toW h0 hfw htw hc h2 h3]
    rfl

/-- C6 witness: the empty-wallet builder hits the insufficient-funds failure;
the funded builder succeeds. -/
theorem build_insufficient_funds_check_witness :
    ((bEmptyCands.outputToUse = none → bEmptyCands.fakeInputs = false →
        walletEmptyA.outputs = [] →
        bEmptyCands.build 0 = Except.error TestFailure.noCandidates ∧
        TestFailure.noCandidates.category = FailureCategory.insufficientFunds) ∧
      (outputsThatCanBeConsumed bEmptyCands walletEmptyA.address walletEmptyA.outputs ≠ [] →
        bEmptyCands.indexation.isEmpty = false → bEmptyCands.parents.isNone = false →
        (bEmptyCands.build 0).isOk = true)) ∧
    ((bMain.outputToUse = none → bMain.fakeInputs = false → walletA.outputs = [] →
        bMain.build 5 = Except.error TestFailure.noCandidates ∧
        TestFailure.noCandidates.category = FailureCategory.insufficientFunds) ∧
      (outputsThatCanBeConsumed bMain walletA.address walletA.outputs ≠ [] →
        bMain.indexation.isEmpty = false → bMain.parents.isNone = false →
        (bMain.build 5).isOk = true)) :=
  ⟨build_insufficient_funds_check bEmptyCands 0 walletEmptyA walletB (by decide) rfl rfl,
   build_insufficient_funds_check bMain 5 walletA walletB (by decide) rfl rfl⟩

/-- C6 counterexample: a non-empty candidate list (one output of amount 5)
that cannot cover the target 42 does not produce an insufficient-funds
failure -- the build succeeds. -/
theorem insufficient_not_fatal_counterexample :
    (bPoor2.build 4).isOk = true ∧
    outputsThatCanBeConsumed bPoor2 walletPoor.address walletPoor.outputs ≠ [] ∧
    sumAmounts (outputsThatCanBeConsumed bPoor2 walletPoor.address walletPoor.outputs) <
      bPoor2.amount :=
  ⟨by decide, by decide, by decide⟩

/-- C7 (amended): a non-positive target amount, an empty tag and unset
parents each abort the build with a `require`-reported precondition
violation; an unset source or destination wallet instead aborts it with a
nil-pointer dereference panic (there is no `require.NotNil` guard on the
wallets), which is fatal but not a reported precondition violation. -/
theorem build_precondition_failures (b : MessageBuilder) (msgId : Nat) :
    (b.amount = 0 → b.build msgId = Except.error TestFailure.amountNotPositive) ∧
    (b.amount ≠ 0 → b.fromWallet = none →
        b.build msgId = Except.error TestFailure.nilWalletPanic) ∧
    (∀ fromW, b.amount ≠ 0 → b.fromWallet = some fromW → b.toWallet = none →
        b.build msgId = Except.error TestFailure.nilWalletPanic) ∧
    (∀ fromW toW, b.amount ≠ 0 → b.fromWallet = some fromW → b.toWallet = some toW →
        outputsThatCanBeConsumed b fromW.address fromW.outputs ≠ [] →
        b.indexation.isEmpty = true →
        b.build msgId = Except.error TestFailure.emptyIndexation) ∧
    (∀ fromW toW, b.amount ≠ 0 → b.fromWallet = some fromW → b.toWallet = some toW →
        outputsThatCanBeConsumed b fromW.address fromW.outputs ≠ [] →
        b.indexation.isEmpty = false → b.parents = none →
        b.build msgId = Except.error TestFailure.nilParents) ∧
    TestFailure.amountNotPositive.category = FailureCategory.preconditionViolation ∧
    TestFailure.emptyIndexation.category = FailureCategory.preconditionViolation ∧
    TestFailure.nilParents.category = FailureCategory.preconditionViolation ∧
    TestFailure.nilWalletPanic.category = FailureCategory.runtimePanic := by
  refine ⟨?_, ?_, ?_, ?_, ?_, rfl, rfl, rfl, rfl⟩
  · intro ha
    rw [MessageBuilder.build, if_pos ha]
  · intro ha hfw
    rw [MessageBuilder.build, if_neg ha]
    simp [hfw]
  · intro fromW ha hfw htw
    rw [MessageBuilder.build, if_neg ha]
    simp [hfw, htw]
  · intro fromW toW ha hfw htw hcand hi
    have hc : (outputsThatCanBeConsumed b fromW.address fromW.outputs).isEmpty = false :=
      List.isEmpty_eq_false.mpr hcand
    rw [MessageBuilder.build, if_neg ha]
    simp [hfw, htw, hc, hi]
  · intro fromW toW ha hfw htw hcand hi hps
    have hc : (outputsThatCanBeConsumed b fromW.address fromW.outputs).isEmpty = false :=
      List.isEmpty_eq_false.mpr hcand
    rw [MessageBuilder.build, if_neg ha]
    simp [hfw, htw, hc, hi, hps]

/-- C7 witness: one concrete builder per missing precondition, each applied
through the precondition theorem. -/
theorem build_precondition_failures_witness :
    bAmt0.build 0 = Except.error TestFailure.amountNotPositive ∧
    bNoTo.build 0 = Except.error TestFailure.nilWalletPanic ∧
    bNoTag.build 0 = Except.error TestFailure.emptyIndexation ∧
    bNoParents.build 0 = Except.error TestFailure.nilParents ∧
    TestFailure.nilWalletPanic.category = FailureCategory.runtimePanic :=
  ⟨(build_precondition_failures bAmt0 0).1 rfl,
   (build_precondition_failures bNoTo 0).2.2.1 walletA (by decide) rfl rfl,
   (build_precondition_failures bNoTag 0).2.2.2.1 walletA walletB (by decide) rfl rfl
     (by decide) rfl,
   (build_precondition_failures bNoParents 0).2.2.2.2.1 walletA walletB (by decide) rfl rfl
     (by decide) rfl rfl,
   (build_precondition_failures bAmt0 0).2.2.2.2.2.2.2.2⟩

/-- C7 counterexample: a builder with no source wallet set and every other
precondition satisfied aborts with the nil-pointer panic, which is not
categorised as a precondition violation -- refuting "each missing
precondition is reported as a precondition violation". -/
theorem nil_wallet_not_precondition_counterexample :
    bNilWalletCex.build 0 = Except.error TestFailure.nilWalletPanic ∧
    TestFailure.nilWalletPanic.category ≠ FailureCategory.preconditionViolation :=
  ⟨rfl, by decide⟩

/-- C8 (amended): at most one sent and at most one remainder output are
classified per build (they are single nullable slots); each declared output
is matched by address+amount equality -- sent: destination address and target
amount; remainder: source address and computed remainder amount, only when
the remainder is positive and only for outputs that did not already match the
sent criterion.  When several outputs match the same role, the LAST matching
output in declaration order is the one classified (each match overwrites the
slot), not the first as claimed: equivalently, classification is the first
match over the reversed declaration order. -/
theorem classification_matching (b : MessageBuilder) (msgId : Nat)
    (m : FabricatedMessage) (fromW toW : Wallet)
    (hfw : b.fromWallet = some fromW) (htw : b.toWallet = some toW)
    (hok : b.build msgId = Except.ok m)
    (hnof : sumAmounts (outputsThatCanBeConsumed b fromW.address fromW.outputs) < 2 ^ 64) :
    m.sentOutput =
      ((m.declaredOutputs.enum.reverse.find? fun x => sentCritB toW.address b.amount x.2).map
        fun x => mkUtxoOutput msgId x.1 x.2) ∧
    m.remainderOutput =
      ((m.declaredOutputs.enum.reverse.find? fun x =>
          !sentCritB toW.address b.amount x.2 &&
            remCritB fromW.address
              (remainderAmountOf b.amount (sumAmounts m.consumedOutputs)) x.2).map
        fun x => mkUtxoOutput msgId x.1 x.2) := by
  obtain ⟨fw', tw', ha, hfw', htw', hc, hi, hp, hm⟩ := build_ok_inv hok
  rw [hfw] at hfw'
  rw [htw] at htw'
  obtain rfl := Option.some.inj hfw'
  obtain rfl := Option.some.inj htw'
  subst hm
  have hnof0 : 0 + sumAmounts (outputsThatCanBeConsumed b fromW.address fromW.outputs) <
      2 ^ 64 := by simpa using hnof
  have hsnd := selectInputs_snd b.amount (outputsThatCanBeConsumed b fromW.address fromW.outputs)
    0 hnof0
  have hss : sumAmounts
      (selectInputs b.amount 0 (outputsThatCanBeConsumed b fromW.address fromW.outputs)).1 =
      (selectInputs b.amount 0 (outputsThatCanBeConsumed b fromW.address fromW.outputs)).2 := by
    omega
  rw [mkBuiltMessage_sent, mkBuiltMessage_remainder, mkBuiltMessage_declared,
    mkBuiltMessage_consumed, hss]
  constructor
  · simp only [classifyOutputs, classifyGo_eq, Option.or_none, List.enum]
  · simp only [classifyOutputs, classifyGo_eq, Option.or_none, List.enum]

/-- C8 witness: concrete instantiation at a funded wallet. -/
theorem classification_matching_witness :
    bMain.build 5 = Except.ok mMain ∧
    sumAmounts (outputsThatCanBeConsumed bMain walletA.address walletA.outputs) < 2 ^ 64 ∧
    (mMain.sentOutput =
      ((mMain.declaredOutputs.enum.reverse.find? fun x =>
          sentCritB walletB.address bMain.amount x.2).map
        fun x => mkUtxoOutput 5 x.1 x.2) ∧
     mMain.remainderOutput =
      ((mMain.declaredOutputs.enum.reverse.find? fun x =>
          !sentCritB walletB.address bMain.amount x.2 &&
            remCritB walletA.address
              (remainderAmountOf bMain.amount (sumAmounts mMain.consumedOutputs)) x.2).map
        fun x => mkUtxoOutput 5 x.1 x.2)) :=
  ⟨rfl, by decide, classification_matching bMain 5 mMain walletA walletB rfl rfl rfl (by decide)⟩

/-- C8 counterexample: a dust-allowance self-transfer of 50 out of 100 makes
both declared outputs (payment, remainder) match the sent criterion.  The
first matching output in declaration order is the payment output at index 0,
but the classified sent output is the one at index 1, and the remainder slot
stays empty -- refuting first-match classification. -/
theorem classification_first_match_counterexample :
    bSelf.build 9 = Except.ok mSelf ∧
    (mSelf.declaredOutputs.enum.find? fun x => sentCritB walletSelf.address bSelf.amount x.2) =
      some (0, paymentOutputOf true walletSelf.address 50) ∧
    mSelf.sentOutput ≠ some (mkUtxoOutput 9 0 (paymentOutputOf true walletSelf.address 50)) ∧
    mSelf.sentOutput =
      some (mkUtxoOutput 9 1
        { outputType := OutputType.sigLockedSingleOutput, address := walletSelf.address,
          amount := 50 }) ∧
    mSelf.remainderOutput = none :=
  ⟨rfl, by decide, by decide, by decide, by decide⟩

/-- C9: the tag-only build fails fatally when the tag is empty, when the
parents slice is unset, or when the parents contain a nil entry; given a
non-empty tag and non-empty all-set parents it produces a message (strict
codec validation is an external collaborator modelled as succeeding) that
carries only the indexation payload, no value transfer, and performs no
wallet or store interaction: the builder (and with it both wallet states) is
returned untouched, no outputs are consumed or classified, and the lifecycle
flags start unset. -/
theorem buildIndexation_contract (b : MessageBuilder) :
    (b.indexation.isEmpty = true →
        b.buildIndexation = Except.error TestFailure.emptyIndexation) ∧
    (b.indexation.isEmpty = false → b.parents = none →
        b.buildIndexation = Except.error TestFailure.nilParents) ∧
    (∀ ps, b.indexation.isEmpty = false → b.parents = some ps → none ∈ ps →
        b.buildIndexation = Except.error TestFailure.nilParentEntry) ∧
    (∀ ps, b.indexation.isEmpty = false → b.parents = some ps → ps ≠ [] →
        (∀ p ∈ ps, p ≠ none) →
        ∃ m, b.buildIndexation = Except.ok m ∧
          m.payload = MessagePayload.indexationOnly b.indexation ∧
          m.consumedOutputs = [] ∧ m.declaredOutputs = [] ∧
          m.sentOutput = none ∧ m.remainderOutput = none ∧
          m.booked = false ∧ m.storedMessageID = none ∧ m.builder = b) := by
  refine ⟨?_, ?_, ?_, ?_⟩
  · intro hi
    rw [MessageBuilder.buildIndexation, if_pos hi]
  · intro hi hps
    rw [MessageBuilder.buildIndexation, if_neg (by simp [hi])]
    simp [hps]
  · intro ps hi hps hmem
    rw [MessageBuilder.buildIndexation, if_neg (by simp [hi])]
    simp [hps, collectParents_error_of_mem_none ps hmem]
  · intro ps hi hps hne hall
    obtain ⟨l, hl⟩ := collectParents_ok_of_all_some ps hall
    have hbuild : b.buildIndexation = Except.ok
        { builder := b, payload := MessagePayload.indexationOnly b.indexation,
          consumedOutputs := [], declaredOutputs := [], sentOutput := none,
          remainderOutput := none, booked := false, storedMessageID := none } := by
      rw [MessageBuilder.buildIndexation, if_neg (by simp [hi])]
      simp [hps, hl]
    exact ⟨_, hbuild, rfl, rfl, rfl, rfl, rfl, rfl, rfl, rfl⟩

/-- C9 witness: one concrete builder per branch of the tag-only contract. -/
theorem buildIndexation_contract_witness :
    bNoTag.buildIndexation = Except.error TestFailure.emptyIndexation ∧
    bNoParents.buildIndexation = Except.error TestFailure.nilParents ∧
    bNilParentEntry.buildIndexation = Except.error TestFailure.nilParentEntry ∧
    (∃ m, bIdx.buildIndexation = Except.ok m ∧
      m.payload = MessagePayload.indexationOnly bIdx.indexation ∧
      m.consumedOutputs = [] ∧ m.declaredOutputs = [] ∧
      m.sentOutput = none ∧ m.remainderOutput = none ∧
      m.booked = false ∧ m.storedMessageID = none ∧ m.builder = bIdx) :=
  ⟨(buildIndexation_contract bNoTag).1 rfl,
   (buildIndexation_contract bNoParents).2.1 rfl rfl,
   (buildIndexation_contract bNilParentEntry).2.2.1 [some 1, none] rfl rfl (by decide),
   (buildIndexation_contract bIdx).2.2.2 [some 2] rfl rfl (by decide) (by decide)⟩

/-- C5: `Store` and `BookOnWallets` are idempotence-guarded one-shot
transitions.  A fresh build starts unbooked and unstored; a successful store
records the identifier and makes any further store fail fatally with the
lifecycle-reuse failure; a successful booking sets the flag and makes any
further booking fail fatally with the lifecycle-reuse failure, and a failed
second call returns only the error -- in this state-passing embedding no
updated wallet state is produced, so no wallet mutates further. -/
theorem lifecycle_one_shot :
    (∀ (b : MessageBuilder) (msgId : Nat) (m : FabricatedMessage),
        b.build msgId = Except.ok m → m.booked = false ∧ m.storedMessageID = none) ∧
    (∀ (m m' : FabricatedMessage) (storeId : Nat), m.store storeId = Except.ok m' →
        m'.storedMessageID = some storeId ∧
        ∀ storeId2, m'.store storeId2 = Except.error TestFailure.alreadyStored) ∧
    (∀ (m : FabricatedMessage) (storeId : Nat), m.storedMessageID.isSome = true →
        m.store storeId = Except.error TestFailure.alreadyStored) ∧
    (∀ (m m' : FabricatedMessage), m.bookOnWallets = Except.ok m' →
        m'.booked = true ∧ m'.bookOnWallets = Except.error TestFailure.alreadyBooked) ∧
    (∀ (m : FabricatedMessage), m.booked = true →
        m.bookOnWallets = Except.error TestFailure.alreadyBooked) ∧
    TestFailure.alreadyStored.category = FailureCategory.lifecycleReuse ∧
    TestFailure.alreadyBooked.category = FailureCategory.lifecycleReuse := by
  refine ⟨?_, ?_, ?_, ?_, ?_, rfl, rfl⟩
  · intro b msgId m h
    obtain ⟨fw', tw', -, -, -, -, -, -, hm⟩ := build_ok_inv h
    subst hm
    exact ⟨rfl, rfl⟩
  · intro m m' storeId h
    cases hs : m.storedMessageID with
    | some v => simp [FabricatedMessage.store, hs] at h
    | none =>
      simp only [FabricatedMessage.store, hs, Except.ok.injEq] at h
      subst h
      exact ⟨rfl, fun storeId2 => rfl⟩
  · intro m storeId h
    obtain ⟨v, hv⟩ := Option.isSome_iff_exists.mp h
    simp [FabricatedMessage.store, hv]
  · intro m m' h
    cases hb : m.booked with
    | true => simp [FabricatedMessage.bookOnWallets, hb] at h
    | false =>
      rcases hfw : m.builder.fromWallet with _ | fw
      · simp [FabricatedMessage.bookOnWallets, hb, hfw] at h
      rcases htw : m.builder.toWallet with _ | tw
      · simp [FabricatedMessage.bookOnWallets, hb, hfw, htw] at h
      simp only [FabricatedMessage.bookOnWallets, hb, hfw, htw, Bool.false_eq_true, if_false,
        Except.ok.injEq] at h
      subst h
      exact ⟨rfl, rfl⟩
  · intro m h
    simp [FabricatedMessage.bookOnWallets, h]

/-- C5 witness: the concrete fabricated message is fresh, stores once, fails
on the second store, books once and fails on the second booking. -/
theorem lifecycle_one_shot_witness :
    (mMain.booked = false ∧ mMain.storedMessageID = none) ∧
    (mMainStored.storedMessageID = some 77 ∧
      ∀ storeId2, mMainStored.store storeId2 = Except.error TestFailure.alreadyStored) ∧
    mMainStored.store 78 = Except.error TestFailure.alreadyStored ∧
    (mMainBooked.booked = true ∧
      mMainBooked.bookOnWallets = Except.error TestFailure.alreadyBooked) ∧
    mMainBooked.bookOnWallets = Except.error TestFailure.alreadyBooked :=
  ⟨lifecycle_one_shot.1 bMain 5 mMain rfl,
   lifecycle_one_shot.2.1 mMain mMainStored 77 rfl,
   lifecycle_one_shot.2.2.1 mMainStored 78 (by decide),
   lifecycle_one_shot.2.2.2.1 mMain mMainBooked rfl,
   lifecycle_one_shot.2.2.2.2.1 mMainBooked (by decide)⟩

/-- C4: `BookOnWallets` is the only operation of this core that changes a
wallet's output set -- both terminal builds and `Store` return the builder
(and with it both wallet states) untouched.  On booking, the source wallet's
new state is exactly its old state with every consumed input removed by
identifier and the remainder output credited (when one was identified), and
the destination wallet's new state is its old state with the sent output
credited (when one was identified); a removed identifier is absent from the
resulting spend-booked set, a credited output is present, and the classified
sent output carries exactly the target amount and the destination address.
(The wallet booking primitives are modelled from the spec, `HDWallet` not
being among the given sources.) -/
theorem bookOnWallets_effects :
    (∀ (b : MessageBuilder) (msgId : Nat) (m : FabricatedMessage),
        b.build msgId = Except.ok m → m.builder = b) ∧
    (∀ (b : MessageBuilder) (m : FabricatedMessage),
        b.buildIndexation = Except.ok m → m.builder = b) ∧
    (∀ (m m' : FabricatedMessage) (storeId : Nat),
        m.store storeId = Except.ok m' → m'.builder = m.builder) ∧
    (∀ (m m' : FabricatedMessage) (fromW toW : Wallet),
        m.builder.fromWallet = some fromW → m.builder.toWallet = some toW →
        m.bookOnWallets = Except.ok m' →
        m'.builder.fromWallet =
          some ((fromW.bookSpents m.consumedOutputs).bookOutput m.remainderOutput) ∧
        m'.builder.toWallet = some (toW.bookOutput m.sentOutput)) ∧
    (∀ (w : Wallet) (spents : List Output) (c : Output), c ∈ spents →
        c.outputID ∉ (w.bookSpents spents).outputs.map Output.outputID) ∧
    (∀ (w : Wallet) (o : Output), (w.bookOutput (some o)).outputs = w.outputs ++ [o]) ∧
    (∀ (b : MessageBuilder) (msgId : Nat) (m : FabricatedMessage) (toW : Wallet) (s : Output),
        b.toWallet = some toW → b.build msgId = Except.ok m → m.sentOutput = some s →
        s.amount = b.amount ∧ s.address = toW.address) := by
  refine ⟨?_, ?_, ?_, ?_, ?_, ?_, ?_⟩
  · intro b msgId m h
    obtain ⟨fw', tw', -, -, -, -, -, -, hm⟩ := build_ok_inv h
    subst hm
    rfl
  · intro b m h
    cases hi : b.indexation.isEmpty with
    | true => simp [MessageBuilder.buildIndexation, hi] at h
    | false =>
      rcases hps : b.parents with _ | ps
      · simp [MessageBuilder.buildIndexation, hi, hps] at h
      rcases hcp : collectParents ps with e | l
      · simp [MessageBuilder.buildIndexation, hi, hps, hcp] at h
      · simp only [MessageBuilder.buildIndexation, hi, hps, hcp, Bool.false_eq_true, if_false,
          Except.ok.injEq] at h
        subst h
        rfl
  · intro m m' storeId h
    cases hs : m.storedMessageID with
    | some v => simp [FabricatedMessage.store, hs] at h
    | none =>
      simp only [FabricatedMessage.store, hs, Except.ok.injEq] at h
      subst h
      rfl
  · intro m m' fromW toW hfw htw h
    cases hb : m.booked with
    | true => simp [FabricatedMessage.bookOnWallets, hb] at h
    | false =>
      simp only [FabricatedMessage.bookOnWallets, hb, hfw, htw, Bool.false_eq_true, if_false,
        Except.ok.injEq] at h
      subst h
      exact ⟨rfl, rfl⟩
  · intro w spents c hc hmem
    rw [List.mem_map] at hmem
    obtain ⟨o, ho, hid⟩ := hmem
    rw [Wallet.bookSpents] at ho
    rw [List.mem_filter] at ho
    obtain ⟨-, hpred⟩ := ho
    rw [Bool.not_eq_eq_eq_not, Bool.not_true, List.any_eq_false] at hpred
    exact hpred c hc (by rw [hid, beq_iff_eq])
  · intro w o
    rfl
  · intro b msgId m toW s htw hok hs
    obtain ⟨fw', tw', ha, hfw', htw', hc, hi, hp, hm⟩ := build_ok_inv hok
    rw [htw] at htw'
    obtain rfl := Option.some.inj htw'
    subst hm
    rw [mkBuiltMessage_sent] at hs
    simp only [classifyOutputs, classifyGo_eq, Option.or_none] at hs
    obtain ⟨x, hfind, hmk⟩ := Option.map_eq_some'.mp hs
    have hcrit := List.find?_some hfind
    simp only [sentCritB, Bool.and_eq_true] at hcrit
    obtain ⟨haddr, hamt⟩ := hcrit
    rw [beq_iff_eq] at haddr hamt
    subst hmk
    exact ⟨hamt, haddr⟩

/-- C4 witness: concrete instantiations of every conjunct: builds and store
leave the builder untouched, booking applies exactly the spend/credit
composition, removal and credit behave as stated, and the sent output of the
funded build carries amount 60 to the destination address. -/
theorem bookOnWallets_effects_witness :
    mMain.builder = bMain ∧
    mIdx.builder = bIdx ∧
    mMainStored.builder = mMain.builder ∧
    (mMainBooked.builder.fromWallet =
        some ((walletA.bookSpents mMain.consumedOutputs).bookOutput mMain.remainderOutput) ∧
      mMainBooked.builder.toWallet = some (walletB.bookOutput mMain.sentOutput)) ∧
    outA100.outputID ∉ (walletA.bookSpents [outA100]).outputs.map Output.outputID ∧
    (walletB.bookOutput (some outA100)).outputs = walletB.outputs ++ [outA100] ∧
    (sentMain.amount = bMain.amount ∧ sentMain.address = walletB.address) :=
  ⟨bookOnWallets_effects.1 bMain 5 mMain rfl,
   bookOnWallets_effects.2.1 bIdx mIdx rfl,
   bookOnWallets_effects.2.2.1 mMain mMainStored 77 rfl,
   bookOnWallets_effects.2.2.2.1 mMain mMainBooked walletA walletB rfl rfl rfl,
   bookOnWallets_effects.2.2.2.2.1 walletA [outA100] outA100 (by decide),
   bookOnWallets_effects.2.2.2.2.2.1 walletB outA100,
   bookOnWallets_effects.2.2.2.2.2.2 bMain 5 mMain walletB sentMain rfl rfl rfl⟩

/-- C10: `BookOnWallets` books unconditionally whatever the build recorded:
on any unbooked message it succeeds and produces exactly the spend-booking of
every consumed output on the source wallet (even a synthetic fake input or an
override that was never a member of that wallet's set -- spending a
non-member identifier is a no-op of the keyed removal) followed by the
credit-bookings of the remainder and sent outputs, which are passed even when
nil (a nil credit adds nothing); this core performs no membership or nil
check before booking.  (The wallet booking primitives are modelled from the
spec, `HDWallet` not being among the given sources.) -/
theorem bookOnWallets_unconditional :
    (∀ (m : FabricatedMessage) (fromW toW : Wallet), m.booked = false →
        m.builder.fromWallet = some fromW → m.builder.toWallet = some toW →
        m.bookOnWallets = Except.ok { m with
          booked := true
          builder := { m.builder with
            fromWallet := some ((fromW.bookSpents m.consumedOutputs).bookOutput
              m.remainderOutput)
            toWallet := some (toW.bookOutput m.sentOutput) } }) ∧
    (∀ (w : Wallet), w.bookOutput none = w) ∧
    (∀ (w : Wallet) (spents : List Output),
        (∀ s ∈ spents, ∀ o ∈ w.outputs, s.outputID ≠ o.outputID) →
        (w.bookSpents spents).outputs = w.outputs) := by
  refine ⟨?_, ?_, ?_⟩
  · intro m fromW toW hb hfw htw
    simp [FabricatedMessage.bookOnWallets, hb, hfw, htw]
  · intro w
    rfl
  · intro w spents hdisj
    rw [Wallet.bookSpents]
    rw [List.filter_eq_self]
    intro o ho
    rw [Bool.not_eq_eq_eq_not, Bool.not_true, List.any_eq_false]
    intro s hs
    simp only [Bool.not_eq_true, beq_eq_false_iff_ne, ne_eq]
    exact hdisj s hs o ho

/-- C10 witness: a fake-input build whose synthetic consumed output was never
a member of the (empty) source wallet still books successfully and
unconditionally; a nil credit-booking is a no-op; spend-booking the synthetic
output against the funded wallet leaves its set unchanged. -/
theorem bookOnWallets_unconditional_witness :
    mFake.booked = false ∧
    mFake.consumedOutputs = [fakeConsumableOutput addrA 50] ∧
    walletEmptyA.outputs = [] ∧
    mFake.bookOnWallets = Except.ok { mFake with
      booked := true
      builder := { mFake.builder with
        fromWallet := some ((walletEmptyA.bookSpents mFake.consumedOutputs).bookOutput
          mFake.remainderOutput)
        toWallet := some (walletB.bookOutput mFake.sentOutput) } } ∧
    walletA.bookOutput none = walletA ∧
    (walletA.bookSpents [fakeConsumableOutput addrA 50]).outputs = walletA.outputs :=
  ⟨rfl, by decide, rfl,
   bookOnWallets_unconditional.1 mFake walletEmptyA walletB rfl rfl rfl,
   bookOnWallets_unconditional.2.1 walletA,
   bookOnWallets_unconditional.2.2 walletA [fakeConsumableOutput addrA 50] (by decide)⟩
